import Mathlib

/-!
Verification development for the OpenFilter QA automation harness
(`qa_tests/run_qa_pipeline.py` and `qa_tests/final_qa_validation.py`).

The two scripts are shallowly embedded: Python ints become `Int`/`Nat`,
Python strings become `String` or `List Char` (a string as its character
list), fallible Python code becomes `Except`/`Option`, and the effects of
the scripts on the outside world (sockets, subprocesses, the filesystem)
are passed in explicitly as oracles or state.
-/

namespace QaPipeline

/-! ## find_available_port (run_qa_pipeline.py lines 16-26) -/

/-- The `for port in range(start_port, start_port + 100)` loop of
`find_available_port`: `canBind port` tells whether
`socket.bind(('localhost', port))` succeeds (the `OSError` branch is
`canBind port = false`).  Scans `n` consecutive ports starting at `port`
and returns the first that binds, `none` when the range is exhausted. -/
def findPortLoop (canBind : Nat → Bool) : Nat → Nat → Option Nat
  | _, 0 => none
  | port, n + 1 => if canBind port then some port else findPortLoop canBind (port + 1) n

/-- `find_available_port` (run_qa_pipeline.py lines 16-26): try the 100
ports `start_port, ..., start_port + 99`; when the loop finds none,
the final `return start_port  # fallback` line runs. -/
def find_available_port (canBind : Nat → Bool) (start_port : Nat) : Nat :=
  match findPortLoop canBind start_port 100 with
  | some port => port
  | none => start_port

/-! ## The basic HTML report (run_qa_pipeline.py lines 28-136) -/

/-- Python runtime exceptions that the embedded report code can raise. -/
inductive PyError where
  | zeroDivision
  | fileNotFound
deriving DecidableEq, Repr

/-- The pass-rate field of `create_basic_html_report`
(run_qa_pipeline.py line 107), the f-string entry
`Pass Rate: {(passed/total*100):.1f}%`: Python true division raises
`ZeroDivisionError` when `total = 0`; there is no guard in the source.
The float value is modelled exactly as a rational. -/
def passRatePercent (passed total : Nat) : Except PyError ℚ :=
  if total = 0 then .error .zeroDivision
  else .ok ((passed : ℚ) / (total : ℚ) * 100)

/-- The bug-discovery field of `create_basic_html_report`
(run_qa_pipeline.py line 108), `Bug Discovery: {(failed/total*100):.1f}%`:
again unguarded Python division. -/
def bugDiscoveryPercent (failed total : Nat) : Except PyError ℚ :=
  if total = 0 then .error .zeroDivision
  else .ok ((failed : ℚ) / (total : ℚ) * 100)

/-- `create_basic_html_report` (run_qa_pipeline.py lines 28-136), as far as
control flow goes: building `html_content` evaluates both percentage
fields before anything is written, so with `total = 0` the function raises
`ZeroDivisionError`; on success it returns the two computed percentages
(the rest of the page is constant text). -/
def create_basic_html_report (total passed failed : Nat) : Except PyError (ℚ × ℚ) := do
  let passRate ← passRatePercent passed total
  let bugRate ← bugDiscoveryPercent failed total
  return (passRate, bugRate)

/-! ## Report generation and the process exit code
(run_qa_pipeline.py lines 138-441) -/

/-- Step 4 of `main` (run_qa_pipeline.py lines 213-252).  `allureCmdOk`:
one of the four allure command variants runs successfully (lines 225-235,
failures are absorbed by the `except` and the loop continues).  `scoopOk`:
the `scoop install allure` fallback works (lines 240-247, failures absorbed
by the bare `except:`).  Otherwise the basic HTML report is generated at
line 251; that call stands inside the bare `except:` block with no
enclosing `try`, so an exception it raises propagates out of `main`.
The returned boolean is `allure_found`, set to `True` on every
non-raising path. -/
def reportStep (allureCmdOk scoopOk : Bool) (total passed failed : Nat) :
    Except PyError Bool :=
  if allureCmdOk then .ok true
  else if scoopOk then .ok true
  else
    match create_basic_html_report total passed failed with
    | .ok _ => .ok true
    | .error e => .error e

/-- Step 5 of `main` (run_qa_pipeline.py lines 254-355): the widget files
are opened for writing under `allure-report/widgets/`.  The allure CLI
creates that directory when it generates the report; the fallback
`create_basic_html_report` creates only `allure-report` itself, so on the
fallback path `open` raises `FileNotFoundError` (uncaught, there is no
`try` around step 5). -/
def customizeStep (widgetsDirExists : Bool) : Except PyError Unit :=
  if widgetsDirExists then .ok () else .error .fileNotFound

/-- The process exit status of `python run_qa_pipeline.py` as a function of
its environment.  `main` captures the pytest returncode at line 191 but
never reads it, and never calls `sys.exit`; a run of `main` that completes
makes the interpreter exit 0, and an uncaught exception (one escaping step
4 or step 5) makes it exit 1.  Steps 3 and 6 only run subprocesses, print
and sleep, absorbing their own errors. -/
def runnerExitCode (pytestReturncode : Int) (allureCmdOk scoopOk : Bool)
    (total passed failed : Nat) : Nat :=
  match reportStep allureCmdOk scoopOk total passed failed with
  | .error _ => 1
  | .ok _ =>
    match customizeStep (allureCmdOk || scoopOk) with
    | .error _ => 1
    | .ok _ => 0

/-! ## Aggregation of per-test result files
(run_qa_pipeline.py lines 197-209) -/

/-- One `*-result.json` file as consumed by `main` (run_qa_pipeline.py
lines 199-209): the outer `none` stands for a file on which `open` or
`json.load` raises (the `except: continue` branch); otherwise the value is
`data.get('status')`, with the inner `none` for an object without a
`status` key. -/
abbrev ResultFile := Option (Option String)

/-- The body of the `for file in glob.glob(...)` loop (run_qa_pipeline.py
lines 199-209) on the accumulator `(total, passed, failed)`: a malformed
file leaves the counters untouched; a well-formed one increments `total`,
then `passed` when its status is `passed`, or `failed` when its status is
`failed` or `broken`. -/
def aggregateStep (acc : Nat × Nat × Nat) (file : ResultFile) : Nat × Nat × Nat :=
  match file with
  | none => acc
  | some status =>
    let total := acc.1 + 1
    if status = some "passed" then (total, acc.2.1 + 1, acc.2.2)
    else if status = some "failed" ∨ status = some "broken" then
      (total, acc.2.1, acc.2.2 + 1)
    else (total, acc.2.1, acc.2.2)

/-- The whole aggregation loop of `main` (run_qa_pipeline.py lines
197-209), starting from `total = passed = failed = 0`. -/
def aggregate (files : List ResultFile) : Nat × Nat × Nat :=
  files.foldl aggregateStep (0, 0, 0)

/-- A result file that `open`/`json.load` read successfully. -/
def wellFormedB (f : ResultFile) : Bool := f.isSome

/-- A well-formed result file with status `passed`. -/
def passedB (f : ResultFile) : Bool := f == some (some "passed")

/-- A well-formed result file with status `failed` or `broken`. -/
def failedB (f : ResultFile) : Bool :=
  f == some (some "failed") || f == some (some "broken")

/-- A well-formed result file with any other status (or none). -/
def otherStatusB (f : ResultFile) : Bool :=
  f.isSome && !(passedB f) && !(failedB f)

/-! ## run_pytest_command (final_qa_validation.py lines 44-61) -/

/-- Outcome of the `subprocess.run` call in
`QAPipelineValidator.run_pytest_command` (final_qa_validation.py lines
49-61): the command completed with a returncode and captured output, the
`subprocess.TimeoutExpired` handler fired (the 300 s bound of line 55), or
the command could not be started (`except Exception as e`). -/
inductive CmdOutcome where
  | completed (returncode : Int) (stdout stderr : String)
  | timeoutExpired
  | startFailure (message : String)
deriving DecidableEq, Repr

/-- `QAPipelineValidator.run_pytest_command` (final_qa_validation.py lines
44-61): returns `(result.returncode == 0, result.stdout, result.stderr)`
on completion, `(False, "", "Command timed out")` on timeout and
`(False, "", str(e))` when the command could not be started. -/
def run_pytest_command : CmdOutcome → Bool × String × String
  | .completed rc out err => (rc == 0, out, err)
  | .timeoutExpired => (false, "", "Command timed out")
  | .startFailure msg => (false, "", msg)

/-! ## The artifact directories across runs
(run_qa_pipeline.py lines 151-180 and the report writes) -/

/-- The file names of one directory; `none` when the directory does not
exist on disk. -/
abbrev DirState := Option (List String)

/-- The two artifact directories of the runner, `allure-results` and
`allure-report`. -/
structure ArtifactDirs where
  allureResults : DirState
  allureReport : DirState
deriving DecidableEq, Repr

/-- `if os.path.exists(d): shutil.rmtree(d)` (run_qa_pipeline.py lines
153-156): afterwards the directory does not exist. -/
def rmtreeIfExists : DirState → DirState
  | some _ => none
  | none => none

/-- `os.makedirs(d, exist_ok=True)` (run_qa_pipeline.py lines 158-159 and
line 30): creates the directory empty when missing, keeps it otherwise. -/
def makedirs : DirState → DirState
  | some files => some files
  | none => some []

/-- `open(f"{d}/{name}", "w")` plus the write, in a directory that exists:
records the file name.  (In a missing directory Python would raise; the
runner only writes after the `makedirs` calls.) -/
def writeFileName (name : String) : DirState → DirState
  | some files => some (name :: files)
  | none => none

/-- One invocation of `main` as it acts on the two artifact directories:
step 1 removes both directories and recreates `allure-results`
(run_qa_pipeline.py lines 151-159), step 2 writes
`environment.properties` and `executor.json` (lines 165-180), the pytest
run writes the per-test result files `newResults` (line 191), and report
generation plus the widget customizations create and fill `allure-report`
with `newReport` (lines 213-355). -/
def runOnce (newResults newReport : List String) (fs : ArtifactDirs) : ArtifactDirs :=
  let results := makedirs (rmtreeIfExists fs.allureResults)
  let report := rmtreeIfExists fs.allureReport
  let results := writeFileName "environment.properties" results
  let results := writeFileName "executor.json" results
  let results := newResults.foldl (fun d n => writeFileName n d) results
  let report := makedirs report
  let report := newReport.foldl (fun d n => writeFileName n d) report
  { allureResults := results, allureReport := report }

/-! ## The categories-trend widget (run_qa_pipeline.py lines 307-321) -/

/-- One entry of `categories_trend_data` (run_qa_pipeline.py lines
307-318). -/
structure CategoriesEntry where
  productDefects : Int
  testDefects : Int
  environmentIssues : Int
  automationIssues : Int
deriving DecidableEq, Repr

/-- The `buildOrder 1` ("Current") entry of `categories_trend_data`
(run_qa_pipeline.py lines 316-317): `"Product defects": max(failed-1, 0)`,
`"Test defects": 1 if failed > 0 else 0`, and zero for the other two
categories, on the Python int `failed`. -/
def categoriesTrendCurrent (failed : Int) : CategoriesEntry :=
  { productDefects := max (failed - 1) 0
  , testDefects := if failed > 0 then 1 else 0
  , environmentIssues := 0
  , automationIssues := 0 }

/-! ## final_qa_validation exit code (final_qa_validation.py lines 292-383) -/

/-- The `all_passed` flag of `generate_validation_report`
(final_qa_validation.py lines 311-337): it starts `True` and each
validation that returns false (or raises) clears it. -/
def overall_success (validationsPassed : List Bool) : Bool :=
  validationsPassed.foldl (fun allPassed p => allPassed && p) true

/-- `final_qa_validation.main` (lines 357-383):
`sys.exit(0 if results["overall_success"] else 1)`. -/
def finalValidationExit (validationsPassed : List Bool) : Nat :=
  if overall_success validationsPassed then 0 else 1

/-! ## Text scraping of pytest output
(final_qa_validation.py lines 84-105) -/

/-- Python `s.split(sep)` for a one-character separator (used as
`stdout.split('\n')` at line 86 and `line_parts[0].split("/")` at line
94): cut at every occurrence of `sep`, keeping empty pieces.  `acc` holds
the current piece reversed. -/
def splitSepAux (sep : Char) : List Char → List Char → List (List Char)
  | [], acc => [acc.reverse]
  | c :: cs, acc =>
    if c == sep then acc.reverse :: splitSepAux sep cs []
    else splitSepAux sep cs (c :: acc)

/-- Python `s.split(sep)` on a character list. -/
def pySplitSep (sep : Char) (l : List Char) : List (List Char) :=
  splitSepAux sep l []

/-- Python `line.split()` with no argument (line 91): the maximal runs of
non-whitespace characters, whitespace discarded. -/
def splitWsAux : List Char → List Char → List (List Char)
  | [], acc => if acc.isEmpty then [] else [acc.reverse]
  | c :: cs, acc =>
    if c.isWhitespace then
      if acc.isEmpty then splitWsAux cs []
      else acc.reverse :: splitWsAux cs []
    else splitWsAux cs (c :: acc)

/-- Python `line.split()` on a character list. -/
def pySplitWs (l : List Char) : List (List Char) :=
  splitWsAux l []

/-- Python `needle in hay` on strings (lines 87 and 92): substring
containment. -/
def pyInStr (needle hay : List Char) : Bool :=
  decide (needle <:+: hay)

/-- Value of a run of decimal digits, most significant first. -/
def digitsVal (l : List Char) : Nat :=
  l.foldl (fun n c => n * 10 + (c.toNat - 48)) 0

/-- Python `int(token)` on the tokens the validator meets: a non-empty run
of decimal digits parses to its value, anything else raises `ValueError`
(`none`).  Python's `int` also accepts a sign and surrounding whitespace,
but the tokens here come from `str.split()`, which strips whitespace, and
pytest counts carry no sign. -/
def pyInt? (l : List Char) : Option Nat :=
  if !l.isEmpty && l.all Char.isDigit then some (digitsVal l) else none

/-- The three ways lines 86-105 of
`QAPipelineValidator.validate_test_collection` classify one captured
stdout: a parsed count (`[PASS] {test_type}: {count} tests collected`, a
brace here stands for the interpolated value), the
`except (IndexError, ValueError)` branch (`Could not parse test count`),
or no line containing both `collected` and `test` (`No tests found`). -/
inductive ParseOutcome where
  | ok (n : Nat)
  | couldNotParse
  | noTestsFound
deriving DecidableEq, Repr

/-- Lines 91-97: split the matched line on whitespace and look at
`line_parts[0]` (an `IndexError` when the line has no token); parse
either the `M/N` shape, `int(line_parts[0].split("/")[1])`, or the plain
shape `int(line_parts[0])`.  `none` is the raised
`IndexError`/`ValueError`. -/
def parseCollectedLine (line : List Char) : Option Nat :=
  match pySplitWs line with
  | [] => none
  | tok :: _ =>
    if pyInStr ['/'] tok then
      match (pySplitSep '/' tok).get? 1 with
      | some part => pyInt? part
      | none => none
    else pyInt? tok

/-- Lines 86-105 of `validate_test_collection` as a function of the
captured stdout: `lines = stdout.split('\n')`, keep the lines containing
both `collected` and `test`, and parse the first one
(`collected_line[0]`). -/
def parseCollect (stdout : List Char) : ParseOutcome :=
  match (pySplitSep '\n' stdout).filter
      (fun line => pyInStr ("collected").data line && pyInStr ("test").data line) with
  | [] => .noTestsFound
  | line :: _ =>
    match parseCollectedLine line with
    | some n => .ok n
    | none => .couldNotParse

/-- The integer stored into `collection_results[test_type]` when the
collection command itself succeeded (lines 98, 101 and 104): the parsed
count on success and 0 in both failure branches.  (The distinct value -1
is stored only when the collection command fails, line 107.) -/
def recordedCount (stdout : List Char) : Int :=
  match parseCollect stdout with
  | .ok n => (n : Int)
  | .couldNotParse => 0
  | .noTestsFound => 0

/-! ## Supporting lemmas -/

lemma digit_facts {c : Char} (h : c.isDigit = true) :
    c.isWhitespace = false ∧ (c == '/') = false ∧ (c == '\n') = false := by
  refine ⟨?_, ?_, ?_⟩
  · by_contra hw
    rw [Bool.not_eq_false] at hw
    simp only [Char.isWhitespace, Bool.or_eq_true, decide_eq_true_eq] at hw
    rcases hw with ((h1 | h1) | h1) | h1 <;> subst h1 <;> exact absurd h (by decide)
  · rw [beq_eq_false_iff_ne]
    intro h1
    subst h1
    exact absurd h (by decide)
  · rw [beq_eq_false_iff_ne]
    intro h1
    subst h1
    exact absurd h (by decide)

lemma pyInt?_some {l : List Char} {n : Nat} (h : pyInt? l = some n) :
    l ≠ [] ∧ (∀ c ∈ l, c.isDigit = true) ∧ digitsVal l = n := by
  unfold pyInt? at h
  by_cases hc : (!l.isEmpty && l.all Char.isDigit) = true
  · rw [if_pos hc] at h
    simp only [Bool.and_eq_true, Bool.not_eq_true', List.all_eq_true] at hc
    refine ⟨?_, hc.2, by injection h⟩
    intro hnil
    subst hnil
    exact absurd hc.1 (by decide)
  · rw [if_neg hc] at h
    exact absurd h (by simp)

lemma splitSepAux_no_sep {sep : Char} :
    ∀ (w rest acc : List Char),
      (∀ c ∈ w, (c == sep) = false) →
      splitSepAux sep (w ++ rest) acc = splitSepAux sep rest (w.reverse ++ acc) := by
  intro w
  induction w with
  | nil => intro rest acc _; simp
  | cons c cs ih =>
    intro rest acc hw
    have hc : (c == sep) = false := hw c (by simp)
    simp only [List.cons_append, splitSepAux, hc, Bool.false_eq_true, if_false,
      List.append_eq]
    rw [ih rest (c :: acc) (fun d hd => hw d (by simp [hd]))]
    simp [List.reverse_cons, List.append_assoc]

lemma pySplitSep_single {sep : Char} (l : List Char)
    (h : ∀ c ∈ l, (c == sep) = false) : pySplitSep sep l = [l] := by
  have h2 := splitSepAux_no_sep l [] [] h
  simpa [pySplitSep, splitSepAux] using h2

lemma pySplitSep_pair {sep : Char} (w₁ w₂ : List Char)
    (h1 : ∀ c ∈ w₁, (c == sep) = false) (h2 : ∀ c ∈ w₂, (c == sep) = false) :
    pySplitSep sep (w₁ ++ sep :: w₂) = [w₁, w₂] := by
  unfold pySplitSep
  rw [splitSepAux_no_sep w₁ (sep :: w₂) [] h1]
  simp only [splitSepAux, beq_self_eq_true, if_true]
  have h3 := splitSepAux_no_sep w₂ [] [] h2
  simp only [List.append_nil] at h3
  rw [h3]
  simp [splitSepAux]

lemma splitWsAux_no_ws :
    ∀ (w rest acc : List Char),
      (∀ c ∈ w, c.isWhitespace = false) →
      splitWsAux (w ++ rest) acc = splitWsAux rest (w.reverse ++ acc) := by
  intro w
  induction w with
  | nil => intro rest acc _; simp
  | cons c cs ih =>
    intro rest acc hw
    have hc : c.isWhitespace = false := hw c (by simp)
    simp only [List.cons_append, splitWsAux, hc, Bool.false_eq_true, if_false,
      List.append_eq]
    rw [ih rest (c :: acc) (fun d hd => hw d (by simp [hd]))]
    simp [List.reverse_cons, List.append_assoc]

lemma splitWsAux_ws_cons (c : Char) (rest acc : List Char)
    (hc : c.isWhitespace = true) (hacc : acc ≠ []) :
    splitWsAux (c :: rest) acc = acc.reverse :: splitWsAux rest [] := by
  cases acc with
  | nil => exact absurd rfl hacc
  | cons a as => simp [splitWsAux, hc]

lemma pySplitWs_token_line (w : List Char) (hne : w ≠ [])
    (hw : ∀ c ∈ w, c.isWhitespace = false) :
    pySplitWs (w ++ (" tests collected").data)
      = [w, ("tests").data, ("collected").data] := by
  unfold pySplitWs
  rw [splitWsAux_no_ws w _ [] hw, List.append_nil]
  have hdata : (" tests collected").data = ' ' :: ("tests collected").data := rfl
  rw [hdata, splitWsAux_ws_cons ' ' _ w.reverse (by decide) (by simpa using hne)]
  rw [List.reverse_reverse]
  have hrest : splitWsAux ("tests collected").data [] =
      [("tests").data, ("collected").data] := by decide
  rw [hrest]

lemma pyInStr_append_right (needle l₁ l₂ : List Char)
    (h : pyInStr needle l₂ = true) : pyInStr needle (l₁ ++ l₂) = true := by
  rw [pyInStr, decide_eq_true_eq] at h ⊢
  exact h.trans (List.suffix_append l₁ l₂).isInfix

lemma singleton_infix_iff_mem (a : Char) (l : List Char) :
    ([a] <:+: l) ↔ a ∈ l := by
  constructor
  · intro h
    exact h.sublist.subset (by simp)
  · intro h
    obtain ⟨s, t, rfl⟩ := List.append_of_mem h
    exact ⟨s, t, by simp⟩

lemma pyInStr_slash_digits (l : List Char) (hd : ∀ c ∈ l, c.isDigit = true) :
    pyInStr ['/'] l = false := by
  rw [pyInStr, decide_eq_false_iff_not]
  intro hin
  have hmem : '/' ∈ l := (singleton_infix_iff_mem '/' l).mp hin
  exact absurd (hd '/' hmem) (by decide)

lemma pySplitSep_newline_single (l : List Char)
    (h : ∀ c ∈ l, (c == '\n') = false) :
    pySplitSep '\n' l = [l] := pySplitSep_single l h

/-- The concrete suffix of both line shapes is free of newlines. -/
lemma suffix_no_newline : ∀ c ∈ (" tests collected").data, (c == '\n') = false := by
  decide

lemma line_pred_true (w : List Char) :
    (pyInStr ("collected").data (w ++ (" tests collected").data)
      && pyInStr ("test").data (w ++ (" tests collected").data)) = true := by
  rw [pyInStr_append_right _ _ _ (by decide), pyInStr_append_right _ _ _ (by decide)]
  rfl

/-! ## Supporting lemmas for the other claims -/

lemma findPortLoop_some {canBind : Nat → Bool} :
    ∀ {n port p : Nat}, findPortLoop canBind port n = some p →
      port ≤ p ∧ p < port + n ∧ canBind p = true ∧
        ∀ q, port ≤ q → q < p → canBind q = false := by
  intro n
  induction n with
  | zero => intro port p h; simp [findPortLoop] at h
  | succ n ih =>
    intro port p h
    rw [findPortLoop] at h
    by_cases hb : canBind port = true
    · rw [if_pos hb] at h
      obtain rfl : port = p := by injection h
      exact ⟨le_refl _, by omega, hb, fun q hq hq2 => absurd hq2 (by omega)⟩
    · rw [if_neg hb] at h
      obtain ⟨h1, h2, h3, h4⟩ := ih h
      refine ⟨by omega, by omega, h3, fun q hq hq2 => ?_⟩
      by_cases hqe : q = port
      · subst hqe; exact Bool.eq_false_iff.mpr hb
      · exact h4 q (by omega) hq2

lemma findPortLoop_isSome {canBind : Nat → Bool} :
    ∀ {n port q : Nat}, port ≤ q → q < port + n → canBind q = true →
      (findPortLoop canBind port n).isSome = true := by
  intro n
  induction n with
  | zero => intro port q h1 h2 _; omega
  | succ n ih =>
    intro port q h1 h2 h3
    rw [findPortLoop]
    by_cases hb : canBind port = true
    · rw [if_pos hb]; rfl
    · rw [if_neg hb]
      by_cases hqe : q = port
      · subst hqe; exact absurd h3 hb
      · exact ih (q := q) (by omega) (by omega) h3

lemma overall_success_foldl (vs : List Bool) :
    ∀ b : Bool, vs.foldl (fun allPassed p => allPassed && p) b = (b && vs.all id) := by
  induction vs with
  | nil => intro b; simp
  | cons v rest ih =>
    intro b
    rw [List.foldl_cons, ih]
    cases b <;> cases v <;> simp

lemma rmtreeIfExists_eq_none (d : DirState) : rmtreeIfExists d = none := by
  cases d <;> rfl

lemma aggregate_foldl (files : List ResultFile) :
    ∀ acc : Nat × Nat × Nat, files.foldl aggregateStep acc =
      (acc.1 + files.countP wellFormedB,
        acc.2.1 + files.countP passedB,
        acc.2.2 + files.countP failedB) := by
  induction files with
  | nil => intro acc; simp
  | cons f rest ih =>
    intro acc
    rw [List.foldl_cons, ih]
    rcases f with _ | status
    · simp [aggregateStep, wellFormedB, passedB, failedB, List.countP_cons]
    · by_cases hp : status = some "passed"
      · subst hp
        simp [aggregateStep, wellFormedB, passedB, failedB, List.countP_cons]
        omega
      · by_cases hf : status = some "failed" ∨ status = some "broken"
        · have hbp : (some status == some (some "passed")) = false := by
            simp [hp]
          have hbf : (some status == some (some "failed")
              || some status == some (some "broken")) = true := by
            rcases hf with hf | hf <;> subst hf <;> simp
          simp [aggregateStep, wellFormedB, passedB, failedB, List.countP_cons,
            hp, hf, hbp, hbf]
          omega
        · have hbp : (some status == some (some "passed")) = false := by
            simp [hp]
          have hbf : (some status == some (some "failed")
              || some status == some (some "broken")) = false := by
            push_neg at hf
            simp [hf.1, hf.2]
          simp [aggregateStep, wellFormedB, passedB, failedB, List.countP_cons,
            hp, hf, hbp, hbf]
          omega

lemma status_partition (f : ResultFile) :
    (if passedB f then 1 else 0) + (if failedB f then 1 else 0)
      + (if otherStatusB f then 1 else 0)
      = if wellFormedB f then 1 else 0 := by
  rcases f with _ | status
  · rfl
  · by_cases hp : status = some "passed"
    · subst hp; rfl
    · by_cases hff : status = some "failed"
      · subst hff; rfl
      · by_cases hbb : status = some "broken"
        · subst hbb; rfl
        · have hbp : passedB (some status) = false := by
            simp [passedB, hp]
          have hbf : failedB (some status) = false := by
            simp [failedB, hff, hbb]
          simp [otherStatusB, wellFormedB, hbp, hbf]

lemma countP_partition (files : List ResultFile) :
    files.countP passedB + files.countP failedB + files.countP otherStatusB
      = files.countP wellFormedB := by
  induction files with
  | nil => rfl
  | cons f rest ih =>
    simp only [List.countP_cons]
    have := status_partition f
    omega

lemma parseCollect_single_line (line : List Char)
    (hnl : ∀ c ∈ line, (c == '\n') = false)
    (hpred : (pyInStr ("collected").data line && pyInStr ("test").data line) = true) :
    parseCollect line = match parseCollectedLine line with
      | some n => .ok n
      | none => .couldNotParse := by
  unfold parseCollect
  rw [pySplitSep_newline_single line hnl]
  simp [List.filter, hpred]

lemma parseCollectedLine_plain (ds : List Char) (n : Nat)
    (hds : pyInt? ds = some n) :
    parseCollectedLine (ds ++ (" tests collected").data) = some n := by
  obtain ⟨hdne, hdd, _⟩ := pyInt?_some hds
  unfold parseCollectedLine
  rw [pySplitWs_token_line ds hdne (fun c hc => (digit_facts (hdd c hc)).1)]
  simp [pyInStr_slash_digits ds hdd, hds]

lemma parseCollectedLine_ratio (ms ns : List Char) (m k : Nat)
    (hms : pyInt? ms = some m) (hns : pyInt? ns = some k) :
    parseCollectedLine ((ms ++ '/' :: ns) ++ (" tests collected").data) = some k := by
  obtain ⟨hmne, hmd, _⟩ := pyInt?_some hms
  obtain ⟨hnne, hnd, _⟩ := pyInt?_some hns
  have htokne : ms ++ '/' :: ns ≠ [] := by simp
  have htoknws : ∀ c ∈ ms ++ '/' :: ns, c.isWhitespace = false := by
    intro c hc
    rcases List.mem_append.mp hc with hc | hc
    · exact (digit_facts (hmd c hc)).1
    · rcases List.mem_cons.mp hc with rfl | hc
      · decide
      · exact (digit_facts (hnd c hc)).1
  unfold parseCollectedLine
  rw [pySplitWs_token_line _ htokne htoknws]
  have hin : pyInStr ['/'] (ms ++ '/' :: ns) = true := by
    rw [pyInStr, decide_eq_true_eq, singleton_infix_iff_mem]
    simp
  have hsplit : pySplitSep '/' (ms ++ '/' :: ns) = [ms, ns] :=
    pySplitSep_pair ms ns (fun c hc => (digit_facts (hmd c hc)).2.1)
      (fun c hc => (digit_facts (hnd c hc)).2.1)
  simp [hin, hsplit, hns]

/-! ## Claim theorems -/

/-- C5: for output consisting of a line of the shape `N tests collected`
(the first token a decimal numeral of value `n`), the scraper in
`validate_test_collection` returns `n`; for a line of the shape
`M/N tests collected` it returns the denominator `k`, never the
numerator. -/
theorem c5_summarize_counts (ds ms ns : List Char) (n m k : Nat)
    (hds : pyInt? ds = some n) (hms : pyInt? ms = some m)
    (hns : pyInt? ns = some k) :
    parseCollect (ds ++ (" tests collected").data) = .ok n ∧
    parseCollect ((ms ++ '/' :: ns) ++ (" tests collected").data) = .ok k := by
  obtain ⟨hdne, hdd, _⟩ := pyInt?_some hds
  obtain ⟨hmne, hmd, _⟩ := pyInt?_some hms
  obtain ⟨hnne, hnd, _⟩ := pyInt?_some hns
  constructor
  · have hnl : ∀ c ∈ ds ++ (" tests collected").data, (c == '\n') = false := by
      intro c hc
      rcases List.mem_append.mp hc with hc | hc
      · exact (digit_facts (hdd c hc)).2.2
      · exact suffix_no_newline c hc
    rw [parseCollect_single_line _ hnl (line_pred_true ds),
      parseCollectedLine_plain ds n hds]
  · have hnl : ∀ c ∈ (ms ++ '/' :: ns) ++ (" tests collected").data,
        (c == '\n') = false := by
      intro c hc
      rcases List.mem_append.mp hc with hc | hc
      · rcases List.mem_append.mp hc with hc | hc
        · exact (digit_facts (hmd c hc)).2.2
        · rcases List.mem_cons.mp hc with rfl | hc
          · decide
          · exact (digit_facts (hnd c hc)).2.2
      · exact suffix_no_newline c hc
    rw [parseCollect_single_line _ hnl (line_pred_true _),
      parseCollectedLine_ratio ms ns m k hms hns]

/-- Witness for C5 on the spec's own examples: `87 tests collected`
parses to 87 and `12/87 tests collected` parses to 87, the denominator. -/
theorem c5_summarize_counts_witness :
    pyInt? ("87").data = some 87 ∧ pyInt? ("12").data = some 12 ∧
    parseCollect (("87").data ++ (" tests collected").data) = .ok 87 ∧
    parseCollect ((("12").data ++ '/' :: ("87").data)
        ++ (" tests collected").data) = .ok 87 :=
  ⟨by decide, by decide,
    (c5_summarize_counts ("87").data ("12").data ("87").data 87 12 87
      (by decide) (by decide) (by decide)).1,
    (c5_summarize_counts ("87").data ("12").data ("87").data 87 12 87
      (by decide) (by decide) (by decide)).2⟩

/-- C2 counterexample: on output text with no recognizable count token the
validator records the integer 0 (`collection_results[test_type] = 0`), so
the claim that it "never returns the integer 0" is false at this input. -/
theorem c2_counterexample :
    parseCollect ("error: no QA output").data = .noTestsFound ∧
    recordedCount ("error: no QA output").data = 0 := by
  constructor <;> decide

/-- C2 (amended): on output text with no recognizable count token,
`validate_test_collection` records the integer 0 through both of its
warning branches — the `No tests found` branch (no line of `stdout`
contains both `collected` and `test`, lines 103-105) and the
`Could not parse test count` branch (a matching line whose first token
`w` raises in `int()`, lines 100-102, here any line
`w ++ " tests collected"` with `pyInt? w = none`).  Both recorded values
equal the value recorded for a genuinely parsed count of zero, so a
parse failure is distinguishable in the log-branch taken, but not in the
recorded integer (only a failed collection command records the distinct
value -1). -/
theorem c2_no_token_records_zero (stdout w : List Char)
    (hno : ∀ line ∈ pySplitSep '\n' stdout,
      (pyInStr ("collected").data line && pyInStr ("test").data line) = false)
    (hwne : w ≠ [])
    (hwws : ∀ c ∈ w, c.isWhitespace = false)
    (hwsl : ∀ c ∈ w, (c == '/') = false)
    (hwnl : ∀ c ∈ w, (c == '\n') = false)
    (hwint : pyInt? w = none) :
    (parseCollect stdout = .noTestsFound ∧ recordedCount stdout = 0) ∧
    (parseCollect (w ++ (" tests collected").data) = .couldNotParse ∧
      recordedCount (w ++ (" tests collected").data) = 0) ∧
    recordedCount stdout = recordedCount (("0 tests collected").data) ∧
    recordedCount (w ++ (" tests collected").data)
      = recordedCount (("0 tests collected").data) := by
  have hfilter : (pySplitSep '\n' stdout).filter
      (fun line => pyInStr ("collected").data line && pyInStr ("test").data line)
        = [] :=
    List.filter_eq_nil_iff.mpr (fun a ha => by rw [hno a ha]; exact Bool.false_ne_true)
  have hparse : parseCollect stdout = .noTestsFound := by
    unfold parseCollect
    rw [hfilter]
  have hrec : recordedCount stdout = 0 := by
    unfold recordedCount
    rw [hparse]
  have hlnl : ∀ c ∈ w ++ (" tests collected").data, (c == '\n') = false := by
    intro c hc
    rcases List.mem_append.mp hc with hc | hc
    · exact hwnl c hc
    · exact suffix_no_newline c hc
  have hslash : pyInStr ['/'] w = false := by
    rw [pyInStr, decide_eq_false_iff_not]
    intro hin
    have hmem : '/' ∈ w := (singleton_infix_iff_mem '/' w).mp hin
    have hne := hwsl '/' hmem
    simp at hne
  have hline : parseCollectedLine (w ++ (" tests collected").data) = none := by
    unfold parseCollectedLine
    rw [pySplitWs_token_line w hwne hwws]
    simp [hslash, hwint]
  have hparse2 : parseCollect (w ++ (" tests collected").data) = .couldNotParse := by
    rw [parseCollect_single_line _ hlnl (line_pred_true w), hline]
  have hrec2 : recordedCount (w ++ (" tests collected").data) = 0 := by
    unfold recordedCount
    rw [hparse2]
  exact ⟨⟨hparse, hrec⟩, ⟨hparse2, hrec2⟩, by rw [hrec]; decide, by rw [hrec2]; decide⟩

/-- Witness for C2's amended statement: `no output` takes the
`No tests found` branch and `garbage tests collected` the
`Could not parse test count` branch; both record 0. -/
theorem c2_no_token_records_zero_witness :
    (parseCollect ("no output").data = .noTestsFound ∧
      recordedCount ("no output").data = 0) ∧
    (parseCollect (("garbage").data ++ (" tests collected").data) = .couldNotParse ∧
      recordedCount (("garbage").data ++ (" tests collected").data) = 0) ∧
    recordedCount ("no output").data = recordedCount (("0 tests collected").data) ∧
    recordedCount (("garbage").data ++ (" tests collected").data)
      = recordedCount (("0 tests collected").data) :=
  c2_no_token_records_zero ("no output").data ("garbage").data (by decide)
    (by decide) (by decide) (by decide) (by decide) (by decide)

/-- C10: for every environment and every `start_port`,
`find_available_port` returns a port `p` with
`start_port ≤ p ≤ start_port + 99`; it is the first bindable port of
`[start_port, start_port + 100)` when one exists, and the fallback
`start_port` itself when none is bindable. -/
theorem c10_find_available_port (canBind : Nat → Bool) (start_port : Nat) :
    start_port ≤ find_available_port canBind start_port ∧
    find_available_port canBind start_port ≤ start_port + 99 ∧
    ((∀ q, start_port ≤ q → q < start_port + 100 → canBind q = false) →
      find_available_port canBind start_port = start_port) ∧
    (∀ q, start_port ≤ q → q < start_port + 100 → canBind q = true →
      canBind (find_available_port canBind start_port) = true ∧
      find_available_port canBind start_port ≤ q ∧
      ∀ r, start_port ≤ r → r < find_available_port canBind start_port →
        canBind r = false) := by
  unfold find_available_port
  rcases hloop : findPortLoop canBind start_port 100 with _ | p <;> simp only [hloop]
  · refine ⟨le_refl _, by omega, fun _ => by trivial, fun q hq1 hq2 hq3 => ?_⟩
    have := findPortLoop_isSome hq1 hq2 hq3
    rw [hloop] at this
    exact absurd this (by simp)
  · obtain ⟨h1, h2, h3, h4⟩ := findPortLoop_some hloop
    refine ⟨h1, by omega, fun hall => ?_, fun q hq1 hq2 hq3 => ?_⟩
    · exact absurd h3 (by rw [hall p h1 (by omega)]; simp)
    · refine ⟨h3, ?_, h4⟩
      by_contra hlt
      push_neg at hlt
      exact absurd hq3 (by rw [h4 q hq1 hlt]; simp)

/-- C9: for every non-negative `failed`, the "Current" entry of the
categories-trend widget satisfies
`productDefects + testDefects = failed`, and its environment and
automation categories are zero. -/
theorem c9_categories_current (failed : Int) (h : 0 ≤ failed) :
    (categoriesTrendCurrent failed).productDefects
      + (categoriesTrendCurrent failed).testDefects = failed ∧
    (categoriesTrendCurrent failed).environmentIssues = 0 ∧
    (categoriesTrendCurrent failed).automationIssues = 0 := by
  refine ⟨?_, rfl, rfl⟩
  simp only [categoriesTrendCurrent]
  rcases lt_or_le 0 failed with hf | hf
  · rw [if_pos hf, max_eq_left (by omega)]
    omega
  · rw [if_neg (by omega), max_eq_right (by omega)]
    omega

/-- Witness for C9 at `failed = 3`. -/
theorem c9_categories_current_witness :
    (categoriesTrendCurrent 3).productDefects
      + (categoriesTrendCurrent 3).testDefects = 3 ∧
    (categoriesTrendCurrent 3).environmentIssues = 0 ∧
    (categoriesTrendCurrent 3).automationIssues = 0 :=
  c9_categories_current 3 (by decide)

/-- C6: `aggregate` returns a run summary whose `total` is the number of
well-formed result files, whose `passed` counts the files with status
`passed`, whose `failed` counts status `failed` or `broken`, with
`passed + failed + other-statuses = total`; and a malformed file is
skipped, contributing to no counter and aborting nothing. -/
theorem c6_aggregate_counts (files : List ResultFile) :
    (aggregate files).1 = files.countP wellFormedB ∧
    (aggregate files).2.1 = files.countP passedB ∧
    (aggregate files).2.2 = files.countP failedB ∧
    (aggregate files).2.1 + (aggregate files).2.2
        + files.countP otherStatusB = (aggregate files).1 ∧
    ∀ rest : List ResultFile, aggregate (none :: rest) = aggregate rest := by
  have h := aggregate_foldl files (0, 0, 0)
  unfold aggregate
  rw [h]
  refine ⟨by simp, by simp, by simp, ?_, fun rest => rfl⟩
  simp only []
  have := countP_partition files
  omega

/-- C7: `run_pytest_command` maps a timeout to the failure outcome
`(False, "", "Command timed out")` (unsuccessful, timed-out indication, no
partial output), maps a command that cannot be started to
`(False, "", message)`, reports success exactly when the command completed
with returncode 0, and these two exception kinds plus an ordinary
non-zero returncode are the only unsuccessful outcomes. -/
theorem c7_execute_outcomes :
    run_pytest_command .timeoutExpired = (false, "", "Command timed out") ∧
    (∀ msg : String, run_pytest_command (.startFailure msg) = (false, "", msg)) ∧
    (∀ (rc : Int) (out err : String),
      (run_pytest_command (.completed rc out err)).1 = true ↔ rc = 0) ∧
    (∀ o : CmdOutcome, (run_pytest_command o).1 = false →
      o = .timeoutExpired ∨ (∃ msg, o = .startFailure msg) ∨
        ∃ rc out err, rc ≠ 0 ∧ o = .completed rc out err) := by
  refine ⟨rfl, fun msg => rfl, fun rc out err => ?_, fun o h => ?_⟩
  · simp [run_pytest_command]
  · rcases o with ⟨rc, out, err⟩ | _ | msg
    · refine Or.inr (Or.inr ⟨rc, out, err, ?_, rfl⟩)
      simp [run_pytest_command] at h
      exact h
    · exact Or.inl rfl
    · exact Or.inr (Or.inl ⟨msg, rfl⟩)

/-- C8: re-running the runner fully replaces the artifact directories: the
state after a run does not depend on the state before it, so two
successive runs leave exactly what the second run alone writes. -/
theorem c8_rerun_replaces :
    ∀ (newResults newReport oldResults oldReport : List String)
      (fs fs' : ArtifactDirs),
      runOnce newResults newReport fs = runOnce newResults newReport fs' ∧
      runOnce newResults newReport (runOnce oldResults oldReport fs)
        = runOnce newResults newReport fs := by
  intro newResults newReport oldResults oldReport fs fs'
  constructor <;>
    simp [runOnce, rmtreeIfExists_eq_none, makedirs]

/-- C1: the claim that the fallback report guards the division
`passed/total` fails on the code: `create_basic_html_report` evaluates
`(passed/total*100)` unguarded, so for `total = 0` it raises
`ZeroDivisionError` instead of producing a "no data" pass-rate field. -/
theorem c1_report_zero_total_divzero :
    ∀ passed failed : Nat,
      create_basic_html_report 0 passed failed = .error .zeroDivision :=
  fun _ _ => rfl

/-- C3: the claim that a failing report step never alters the exit code
fails on the code: with allure and scoop unavailable and `total = 0`, the
fallback report raises `ZeroDivisionError`, the exception escapes `main`
(the fallback call has no enclosing `try`), and the process exits 1,
whereas the same run with a successful report step exits 0. -/
theorem c3_report_failure_changes_exit :
    ∀ (rc : Int) (passed failed : Nat),
      reportStep false false 0 passed failed = .error .zeroDivision ∧
      runnerExitCode rc false false 0 passed failed = 1 ∧
      runnerExitCode rc true false 0 passed failed = 0 :=
  fun _ _ _ => ⟨rfl, rfl, rfl⟩

/-- C4 counterexample: the pipeline runner's entry point exits 0 on a run
whose underlying tests failed (pytest returncode 1, three failed result
files), where the claim demands a non-zero exit code. -/
theorem c4_counterexample :
    runnerExitCode 1 true false 10 7 3 = 0 ∧ (1 : Int) ≠ 0 := by
  exact ⟨rfl, by decide⟩

/-- C4 (amended): `final_qa_validation.main` exits 0 exactly when every
validation passed and 1 otherwise, while `run_qa_pipeline.main` never
inspects the pytest returncode and exits 0 on every run that completes,
even when the underlying tests fail. -/
theorem c4_exit_codes :
    (∀ vs : List Bool, finalValidationExit vs = 0 ↔ vs.all id = true) ∧
    (∀ (rc : Int) (scoopOk : Bool) (total passed failed : Nat),
      runnerExitCode rc true scoopOk total passed failed = 0) := by
  constructor
  · intro vs
    unfold finalValidationExit overall_success
    rw [overall_success_foldl vs true]
    cases hall : vs.all id <;> simp
  · intro rc scoopOk total passed failed
    rfl

end QaPipeline
